import Mathlib

/-!
Shallow embedding of the FormFit per-frame pose-analysis pipeline
(src/components/CameraView.tsx) over exact rational arithmetic.

Modelling conventions:
* JavaScript numbers are modelled as rationals (ℚ); the decimal literals of
  the source are exact in ℚ, so every threshold comparison is faithful.
* `Math.hypot` and `Math.atan2` are irrational-valued.  Every definition that
  calls them is parametrised by the corresponding function
  (`hyp : ℚ → ℚ → ℚ` standing for `Math.hypot(dx, dy)`, and `angleFn`
  standing for `calculateAngle`), and the theorems quantify over these
  parameters, so nothing proved below depends on a simplified stand-in.
  Concrete counterexamples and witnesses use instantiations that agree with
  the real functions at every point at which they are evaluated
  (axis-aligned displacements, where `Math.hypot(d, 0) = |d|`).
* MediaPipe landmark arrays always hold 33 entries, so a landmark set is a
  total function `Nat → Landmark`; the overlay renderer, whose guards are
  about potentially-absent entries, instead consumes `Nat → Option Landmark`.
* `Date.now()` timestamps are integers (milliseconds).
-/

namespace FormFit

/-- One MediaPipe `NormalizedLandmark`: position `x, y, z` plus an optional
`visibility`; the source reads the latter as `lm.visibility ?? 0`. -/
structure Landmark where
  x : ℚ
  y : ℚ
  z : ℚ
  visibility : Option ℚ
deriving DecidableEq

/-- A full landmark array (always 33 entries in the source). -/
abbrev LMs := Nat → Landmark

/-- The workout identifiers of `types.tsx`, as used by `CameraView.tsx`. -/
inductive WorkoutType
  | SQUAT
  | PUSHUP
  | LUNGE
  | BICEP_CURL
  | TRICEP_EXTENSION
  | PLANK
deriving DecidableEq

/-- `lerp` (CameraView.tsx line 14): linear interpolation. -/
def lerp (start stop factor : ℚ) : ℚ := start + (stop - start) * factor

/-- The per-landmark blend factor computed inside `adaptiveSmoothLandmarks`
(lines 658-671): `minAlpha` up to the lower threshold, then a cubic
ease-out curve towards `maxAlpha`, saturating at the upper threshold. -/
def alphaOf (metric : ℚ) : ℚ :=
  let minAlpha : ℚ := 0.08
  let maxAlpha : ℚ := 0.92
  let lowerThreshold : ℚ := 0.0005
  let upperThreshold : ℚ := 0.025
  if metric > lowerThreshold then
    let t := min 1 ((metric - lowerThreshold) / (upperThreshold - lowerThreshold))
    let curve := 1 - (1 - t) ^ 3
    minAlpha + (maxAlpha - minAlpha) * curve
  else
    minAlpha

/-- The core skeleton anchor indices (shoulders and hips), line 640. -/
def coreIndices : List Nat := [11, 12, 23, 24]

/-- Mean 2D core displacement between `prev` and `current` (lines 641-650).
Both arrays always hold 33 entries, so the per-index existence test of the
source always succeeds and the divisor `count` equals 4. -/
def globalVelocity (hyp : ℚ → ℚ → ℚ) (current prev : LMs) : ℚ :=
  ((coreIndices.map fun idx =>
      hyp ((current idx).x - (prev idx).x) ((current idx).y - (prev idx).y)).sum) / 4

/-- The hybrid velocity metric for landmark `i` (lines 654-656):
`max(localVelocity, globalVelocity * 0.6)`. -/
def smootherMetric (hyp : ℚ → ℚ → ℚ) (current prev : LMs) (i : Nat) : ℚ :=
  max (hyp ((current i).x - (prev i).x) ((current i).y - (prev i).y))
      (globalVelocity hyp current prev * 0.6)

/-- `adaptiveSmoothLandmarks` (lines 634-680): identity when there is no
previous set, otherwise a per-landmark lerp with the velocity-adaptive
blend factor; visibility is passed through from the current raw landmark. -/
def adaptiveSmoothLandmarks (hyp : ℚ → ℚ → ℚ) (current : LMs) (prev : Option LMs) : LMs :=
  match prev with
  | none => current
  | some p => fun i =>
      let curr := current i
      let alpha := alphaOf (smootherMetric hyp current p i)
      { x := lerp (p i).x curr.x alpha
        y := lerp (p i).y curr.y alpha
        z := lerp (p i).z curr.z alpha
        visibility := curr.visibility }

/-- Visibility test `(lm.visibility ?? 0) > 0.5` (line 192). -/
def isVisible (lm : Landmark) : Prop := lm.visibility.getD 0 > 0.5

instance (lm : Landmark) : Decidable (isVisible lm) := by
  unfold isVisible; infer_instance

/-- `shoulderWidth` of `analyzePose` (line 201). -/
def shoulderWidthOf (lms : LMs) : ℚ := |(lms 11).x - (lms 12).x|

/-- `torsoHeight` of `analyzePose` (line 202). -/
def torsoHeightOf (lms : LMs) : ℚ :=
  |((lms 11).y + (lms 12).y) / 2 - ((lms 23).y + (lms 24).y) / 2|

/-- `bodyScale` of `analyzePose` (line 203). -/
def bodyScaleOf (lms : LMs) : ℚ := (shoulderWidthOf lms + torsoHeightOf lms) / 2

/-- `analyzePose` (lines 191-272).  The early `return`s of the source become
if/else chains evaluated in the same order; `calculateAngle` (lines 17-22,
transcendental) is the parameter `angleFn`; all other geometry is exact.
Landmark indices: shoulders 11/12, elbows 13/14, wrists 15/16, hips 23/24,
knees 25/26, ankles 27/28, left heel 29. -/
def analyzePose (angleFn : Landmark → Landmark → Landmark → ℚ)
    (landmarks : LMs) (workout : WorkoutType) (stabilityScore : ℚ) : Option String :=
  if bodyScaleOf landmarks < 0.02 then none
  else
    match workout with
    | .SQUAT =>
        if |(landmarks 27).x - (landmarks 28).x| > bodyScaleOf landmarks * 0.2 ∧
           |(landmarks 25).x - (landmarks 26).x| < |(landmarks 27).x - (landmarks 28).x| * 0.75 then
          some "Push Knees Out!"
        else if (landmarks 25).z < (landmarks 27).z - bodyScaleOf landmarks * 0.6 ∨
                (landmarks 26).z < (landmarks 28).z - bodyScaleOf landmarks * 0.6 then
          some "Keep Knees Behind Toes"
        else none
    | .PUSHUP =>
        if (landmarks 23).y > (landmarks 11).y + bodyScaleOf landmarks * 0.3 ∧
           (landmarks 23).y > (landmarks 29).y + bodyScaleOf landmarks * 0.3 then
          some "Lift Your Hips!"
        else none
    | .LUNGE =>
        if stabilityScore > 0.003 then some "Balance & Control" else none
    | .BICEP_CURL =>
        if ((landmarks 15).y < (landmarks 23).y ∧ isVisible (landmarks 15)) ∧
           |(landmarks 13).x - (landmarks 11).x| > shoulderWidthOf landmarks * 0.9 then
          some "Tuck Left Elbow"
        else if ((landmarks 15).y < (landmarks 23).y ∧ isVisible (landmarks 15)) ∧
                angleFn (landmarks 11) (landmarks 13) (landmarks 15) > 160 ∧
                stabilityScore < 0.001 then
          some "Curl up fully"
        else if ((landmarks 16).y < (landmarks 24).y ∧ isVisible (landmarks 16)) ∧
                |(landmarks 14).x - (landmarks 12).x| > shoulderWidthOf landmarks * 0.9 then
          some "Tuck Right Elbow"
        else if stabilityScore > 0.0025 then
          some "Keep Torso Still"
        else none
    | .PLANK =>
        if ((landmarks 23).y + (landmarks 24).y) / 2 >
           ((landmarks 27).y + (landmarks 28).y) / 2 + bodyScaleOf landmarks * 0.3 then
          some "Raise Hips!"
        else if ((landmarks 23).y + (landmarks 24).y) / 2 <
                ((landmarks 11).y + (landmarks 12).y) / 2 - bodyScaleOf landmarks * 0.15 then
          some "Lower Hips"
        else if stabilityScore > 0.002 then some "Hold Steady!"
        else none
    | .TRICEP_EXTENSION =>
        let activeShoulder := if (landmarks 13).y < (landmarks 14).y then landmarks 11 else landmarks 12
        let activeElbow := if (landmarks 13).y < (landmarks 14).y then landmarks 13 else landmarks 14
        let activeWrist := if (landmarks 13).y < (landmarks 14).y then landmarks 15 else landmarks 16
        if ¬ isVisible activeElbow ∨ ¬ isVisible activeWrist then none
        else if ¬ (activeElbow.y < activeShoulder.y) then some "Raise Elbow High"
        else if |activeElbow.x - activeShoulder.x| > shoulderWidthOf landmarks * 1.4 then
          some "Elbow closer to ear"
        else if stabilityScore < 0.001 ∧ angleFn activeShoulder activeElbow activeWrist > 70 ∧
                angleFn activeShoulder activeElbow activeWrist < 140 then
          some "Full Range needed"
        else if stabilityScore < 0.001 ∧ angleFn activeShoulder activeElbow activeWrist < 60 then
          some "Extend Up"
        else if stabilityScore < 0.001 ∧ angleFn activeShoulder activeElbow activeWrist > 150 then
          some "Lower Behind Head"
        else none

/-- Tracking-quality levels (line 97). -/
inductive Quality
  | GOOD
  | POOR
  | LOST
deriving DecidableEq

/-- The classification of the continuous score (lines 573-575). -/
def classifyQuality (score : ℚ) : Quality :=
  if score > 0.8 then .GOOD else if score > 0.5 then .POOR else .LOST

/-- The continuous tracking score (lines 561-571): mean visibility of the
upper-body landmarks 11..22 (all twelve entries exist, so `count = 12`),
halved when the smoothed shoulder width drops below 0.05. -/
def trackingScoreOf (smoothed : LMs) : ℚ :=
  let totalVis := ((List.range 12).map fun k => (smoothed (11 + k)).visibility.getD 0).sum
  let score := totalVis / 12
  if |(smoothed 11).x - (smoothed 12).x| < 0.05 then score * 0.5 else score

/-- Hip midpoint (x, y) of a landmark set (lines 587-594). -/
def hipMidpoint (lms : LMs) : ℚ × ℚ :=
  (((lms 23).x + (lms 24).x) / 2, ((lms 23).y + (lms 24).y) / 2)

/-- The mutable refs of `CameraView` that the per-frame pipeline reads and
writes (lines 105-114): the previous smoothed set, the last known-good raw
set and its timestamp, the stability score, and the heuristic-cue state. -/
structure PipelineState where
  prevLandmarks : Option LMs
  lastValidLandmarks : Option LMs
  lastLandmarksTime : ℤ
  stabilityScore : ℚ
  lastHeuristicUpdate : ℤ
  heuristicFeedback : Option String

/-- What one `detectPose` cycle exposes for the frame: the landmark set fed
to the downstream components (after the grace-window reuse), and the
frame-local tracking quality and score (lines 319-320, 569-575). -/
structure FrameOutput where
  usedLandmarks : Option LMs
  quality : Quality
  score : ℚ

/-- The landmark persistence logic of lines 339-344: when the detector
returned nothing, the last known-good set is reused only while the 200ms
grace window is open. -/
def graceLandmarks (st : PipelineState) (now : ℤ) : Option LMs :=
  match st.lastValidLandmarks with
  | some l => if now - st.lastLandmarksTime < 200 then some l else none
  | none => none

/-- The body of `detectPose` for a frame that has a usable landmark set `l`
(lines 429-604).  `lastValid`/`lastTime` are the already-updated persistence
refs.  Key ordering facts of the source, reproduced here:

* line 577 assigns `prevLandmarksRef.current = smoothedLandmarks` *before*
  the stability-score block, so at lines 585-597 the guard
  `if (prevLandmarksRef.current)` always passes and `prevHips` is computed
  from the **current** frame's smoothed set, while `currentHips` is computed
  from the raw `landmarks` array;
* the heuristic block (lines 599-604) runs only when the session is active
  and more than 500ms have passed since the last evaluation, and it receives
  the raw `landmarks` array and the just-updated stability score. -/
def runFrameWith (hyp : ℚ → ℚ → ℚ) (angleFn : Landmark → Landmark → Landmark → ℚ)
    (workout : WorkoutType) (isActive : Bool) (st : PipelineState) (l : LMs)
    (lastValid : Option LMs) (lastTime : ℤ) (now : ℤ) : PipelineState × FrameOutput :=
  let smoothed := adaptiveSmoothLandmarks hyp l st.prevLandmarks
  let currentScore := trackingScoreOf smoothed
  let movement := hyp ((hipMidpoint l).1 - (hipMidpoint smoothed).1)
                      ((hipMidpoint l).2 - (hipMidpoint smoothed).2)
  let stability := st.stabilityScore * 0.9 + movement * 0.1
  ({ prevLandmarks := some smoothed
     lastValidLandmarks := lastValid
     lastLandmarksTime := lastTime
     stabilityScore := stability
     lastHeuristicUpdate :=
       if isActive ∧ now - st.lastHeuristicUpdate > 500 then now else st.lastHeuristicUpdate
     heuristicFeedback :=
       if isActive ∧ now - st.lastHeuristicUpdate > 500 then
         analyzePose angleFn l workout stability
       else st.heuristicFeedback },
   { usedLandmarks := some l
     quality := classifyQuality currentScore
     score := currentScore })

/-- The body of `detectPose` for a frame with no usable landmark set
(lines 605-611): the frame-local quality stays at its `LOST`/0 initialisation
(lines 319-320), and once the 200ms grace window has been exceeded the
retained smoothed state is cleared. -/
def runFrameNone (st : PipelineState) (now : ℤ) : PipelineState × FrameOutput :=
  ({ st with prevLandmarks :=
       if now - st.lastLandmarksTime > 200 then none else st.prevLandmarks },
   { usedLandmarks := none, quality := .LOST, score := 0 })

/-- One `detectPose` cycle (lines 274-632), restricted to the data path the
claims are about (canvas bookkeeping, the segmentation mask, and the
throttled React-state emission of lines 622-628 have no effect on it).
`resultLandmarks` is `results.landmarks[0]` when the detector found a
subject (lines 335-338: it is stored with its timestamp), otherwise the
grace-window reuse of lines 339-344 applies. -/
def detectPoseStep (hyp : ℚ → ℚ → ℚ) (angleFn : Landmark → Landmark → Landmark → ℚ)
    (workout : WorkoutType) (isActive : Bool) (st : PipelineState)
    (resultLandmarks : Option LMs) (now : ℤ) : PipelineState × FrameOutput :=
  match resultLandmarks with
  | some l => runFrameWith hyp angleFn workout isActive st l (some l) now now
  | none =>
      match graceLandmarks st now with
      | some l =>
          runFrameWith hyp angleFn workout isActive st l
            st.lastValidLandmarks st.lastLandmarksTime now
      | none => runFrameNone st now

/-- The body-part keys of `ANATOMY_PATHS` (lines 25-68). -/
inductive PartKey
  | delt
  | upperArm
  | forearm
  | thigh
  | calf
  | torso
  | digit
deriving DecidableEq

/-- A landmark array as seen by the overlay renderer's per-part guards:
an entry may be absent (`undefined` in the source). -/
abbrev PartialLMs := Nat → Option Landmark

/-- A painted body-part shape, recorded as the landmark pair it is aligned
to plus its part key (the canvas transform itself carries no further
information relevant to the claims). -/
structure DrawCmd where
  startIdx : Nat
  endIdx : Nat
  part : PartKey
deriving DecidableEq

/-- The landmark pairs and part keys painted by the `drawMusclePart` calls of
lines 517-530, in source order. -/
def musclePartList : List (Nat × Nat × PartKey) :=
  [(11, 13, .upperArm), (12, 14, .upperArm), (13, 15, .forearm), (14, 16, .forearm),
   (23, 25, .thigh), (24, 26, .thigh), (25, 27, .calf), (26, 28, .calf),
   (15, 19, .digit), (15, 17, .digit), (16, 20, .digit), (16, 18, .digit)]

/-- `drawMusclePart` (lines 432-476): a no-op when either endpoint landmark
is absent (`if (!start || !end) return;`), otherwise it paints the shape
(low visibility only lowers the fill opacity, it never suppresses the
shape). -/
def drawMusclePart (lms : PartialLMs) (startIdx endIdx : Nat) (part : PartKey) :
    Option DrawCmd :=
  match lms startIdx, lms endIdx with
  | some _, some _ => some ⟨startIdx, endIdx, part⟩
  | _, _ => none

/-- The anatomy pass of the renderer (lines 480-530), producing the list of
muscle-part shapes painted for the frame.  Before any `drawMusclePart` call
runs, lines 482-485 compute the torso midpoints by reading
`smoothedLandmarks[11] / [12] / [23] / [24]` without a guard; in JavaScript a
missing entry makes the `.x` access throw, aborting the frame's drawing (the
exception is only caught by the per-frame try/catch at line 617), which is
modelled as `Except.error`.  The torso shape itself and the joint welds add
no further crash sites once these four landmarks exist (every
`drawJointWeld` is guarded on its own landmark, lines 533-535, and reads
only landmarks 11/12 besides it). -/
def renderAnatomy (lms : PartialLMs) : Except Unit (List DrawCmd) :=
  match lms 11, lms 12, lms 23, lms 24 with
  | some _, some _, some _, some _ =>
      .ok (musclePartList.filterMap fun t => drawMusclePart lms t.1 t.2.1 t.2.2)
  | _, _, _, _ => .error ()

/-! ### Concrete data used by counterexamples and witnesses -/

/-- A fully-visible landmark at (x, y), depth 0. -/
def mkLM (x y : ℚ) : Landmark := { x := x, y := y, z := 0, visibility := some 1 }

/-- Test instantiation of the `Math.hypot` parameter.  It agrees with the
real `Math.hypot` on every axis-aligned displacement
(`Math.hypot(d, 0) = Math.hypot(0, d) = |d|`), and every concrete scenario
below evaluates it only at such points. -/
def hypW (dx dy : ℚ) : ℚ := if dy = 0 then |dx| else if dx = 0 then |dy| else 0

/-- Test instantiation of the `calculateAngle` parameter; no concrete
scenario below reaches an angle-dependent rule. -/
def angleZero : Landmark → Landmark → Landmark → ℚ := fun _ _ _ => 0

/-- All 33 landmarks at the origin, fully visible. -/
def lmsOrigin : LMs := fun _ => mkLM 0 0

/-- All 33 landmarks at x = 0.025, y = 0, fully visible: one frame after
`lmsOrigin` in which the whole body moved 0.025 along x. -/
def lmsShifted : LMs := fun _ => mkLM 0.025 0

/-- A pipeline state that is mid-track: the previous smoothed set and the
last known-good raw set are both `lmsOrigin`, seen at t = 0. -/
def stTracked : PipelineState :=
  { prevLandmarks := some lmsOrigin
    lastValidLandmarks := some lmsOrigin
    lastLandmarksTime := 0
    stabilityScore := 0
    lastHeuristicUpdate := 0
    heuristicFeedback := none }

/-- A pipeline state with no previous smoothed set and a nonzero stability
score. -/
def stFresh : PipelineState :=
  { prevLandmarks := none
    lastValidLandmarks := none
    lastLandmarksTime := 0
    stabilityScore := 1
    lastHeuristicUpdate := 0
    heuristicFeedback := none }

/-- Companion definition written from the spec's words for the Smoother's
blend curve: `t = clamp((metric-lower)/(upper-lower), 0, 1)`,
`curve = 1-(1-t)^3`, `alpha = minAlpha + (maxAlpha-minAlpha)*curve`.
It exists to be compared with `alphaOf`, which is the source's computation. -/
def specAlphaOf (metric : ℚ) : ℚ :=
  let t := max 0 (min 1 ((metric - 0.0005) / (0.025 - 0.0005)))
  0.08 + (0.92 - 0.08) * (1 - (1 - t) ^ 3)

lemma alphaOf_eq_specAlphaOf (m : ℚ) : alphaOf m = specAlphaOf m := by
  unfold alphaOf specAlphaOf
  by_cases h : m > 0.0005
  · have hnum : (0 : ℚ) < (m - 0.0005) / (0.025 - 0.0005) := by
      apply div_pos <;> [linarith; norm_num]
    rw [if_pos h, max_eq_right (le_min (by norm_num) hnum.le)]
  · have hnum : (m - 0.0005) / (0.025 - 0.0005) ≤ 0 := by
      apply div_nonpos_of_nonpos_of_nonneg <;> [linarith [not_lt.mp h]; norm_num]
    rw [if_neg h, min_eq_right (hnum.trans (by norm_num)), max_eq_left hnum]
    norm_num

lemma specAlphaOf_t_bounds (m : ℚ) :
    0 ≤ max 0 (min 1 ((m - 0.0005) / (0.025 - 0.0005))) ∧
    max 0 (min 1 ((m - 0.0005) / (0.025 - 0.0005))) ≤ 1 :=
  ⟨le_max_left _ _, max_le (by norm_num) (min_le_left _ _)⟩

lemma alphaOf_bounds (m : ℚ) : 0.08 ≤ alphaOf m ∧ alphaOf m ≤ 0.92 := by
  rw [alphaOf_eq_specAlphaOf]
  unfold specAlphaOf
  obtain ⟨h0, h1⟩ := specAlphaOf_t_bounds m
  set t := max 0 (min 1 ((m - 0.0005) / (0.025 - 0.0005))) with ht
  have hle : (1 - t) ^ 3 ≤ 1 := pow_le_one₀ (by linarith) (by linarith)
  have hge : (0 : ℚ) ≤ (1 - t) ^ 3 := pow_nonneg (by linarith) 3
  constructor <;> nlinarith

lemma specAlphaOf_mono {m₁ m₂ : ℚ} (h : m₁ ≤ m₂) : specAlphaOf m₁ ≤ specAlphaOf m₂ := by
  unfold specAlphaOf
  have hd : (0 : ℚ) < 0.025 - 0.0005 := by norm_num
  have hdiv : (m₁ - 0.0005) / (0.025 - 0.0005) ≤ (m₂ - 0.0005) / (0.025 - 0.0005) :=
    (div_le_div_iff_of_pos_right hd).mpr (by linarith)
  have ht : max 0 (min 1 ((m₁ - 0.0005) / (0.025 - 0.0005))) ≤
      max 0 (min 1 ((m₂ - 0.0005) / (0.025 - 0.0005))) :=
    max_le_max le_rfl (min_le_min le_rfl hdiv)
  obtain ⟨h10, h11⟩ := specAlphaOf_t_bounds m₁
  obtain ⟨h20, h21⟩ := specAlphaOf_t_bounds m₂
  set t₁ := max 0 (min 1 ((m₁ - 0.0005) / (0.025 - 0.0005)))
  set t₂ := max 0 (min 1 ((m₂ - 0.0005) / (0.025 - 0.0005)))
  have hpow : (1 - t₂) ^ 3 ≤ (1 - t₁) ^ 3 :=
    pow_le_pow_left₀ (by linarith) (by linarith) 3
  linarith

/-- C3: the Smoother's blend factor, as a function of the velocity metric,
equals `minAlpha + (maxAlpha-minAlpha)*(1-(1-t)^3)` with
`t = clamp((metric-0.0005)/(0.025-0.0005), 0, 1)`; for every metric
≤ 0.0005 it equals 0.08 exactly, for every metric ≥ 0.025 it equals 0.92
exactly, and it is monotonically non-decreasing between the two
thresholds. -/
theorem smootherAlpha_spec :
    (∀ m : ℚ, alphaOf m = specAlphaOf m)
    ∧ (∀ m : ℚ, m ≤ 0.0005 → alphaOf m = 0.08)
    ∧ (∀ m : ℚ, 0.025 ≤ m → alphaOf m = 0.92)
    ∧ (∀ m₁ m₂ : ℚ, 0.0005 ≤ m₁ → m₁ ≤ m₂ → m₂ ≤ 0.025 → alphaOf m₁ ≤ alphaOf m₂) := by
  refine ⟨alphaOf_eq_specAlphaOf, fun m hm => ?_, fun m hm => ?_, fun m₁ m₂ _ h _ => ?_⟩
  · unfold alphaOf
    rw [if_neg (by linarith)]
  · unfold alphaOf
    rw [if_pos (by linarith), min_eq_left ((one_le_div (by norm_num)).mpr (by linarith))]
    norm_num
  · rw [alphaOf_eq_specAlphaOf, alphaOf_eq_specAlphaOf]
    exact specAlphaOf_mono h

/-- Witness for C3 at concrete metrics. -/
theorem smootherAlpha_spec_witness :
    alphaOf 0.0003 = 0.08 ∧ alphaOf 0.3 = 0.92 ∧ alphaOf 0.01 ≤ alphaOf 0.02 :=
  ⟨smootherAlpha_spec.2.1 0.0003 (by norm_num),
   smootherAlpha_spec.2.2.1 0.3 (by norm_num),
   smootherAlpha_spec.2.2.2 0.01 0.02 (by norm_num) (by norm_num) (by norm_num)⟩

/-- C4: tracking-quality classification is a pure function of the continuous
score: GOOD iff score > 0.8, POOR iff 0.5 < score ≤ 0.8, LOST otherwise;
scores 0.81, 0.8, 0.51, 0.5, 0.2 classify as GOOD, POOR, POOR, LOST, LOST. -/
theorem trackingQuality_classification :
    (∀ s : ℚ, classifyQuality s = Quality.GOOD ↔ s > 0.8)
    ∧ (∀ s : ℚ, classifyQuality s = Quality.POOR ↔ 0.5 < s ∧ s ≤ 0.8)
    ∧ (∀ s : ℚ, classifyQuality s = Quality.LOST ↔ s ≤ 0.5)
    ∧ classifyQuality 0.81 = Quality.GOOD
    ∧ classifyQuality 0.8 = Quality.POOR
    ∧ classifyQuality 0.51 = Quality.POOR
    ∧ classifyQuality 0.5 = Quality.LOST
    ∧ classifyQuality 0.2 = Quality.LOST := by
  have hGood : ∀ s : ℚ, classifyQuality s = Quality.GOOD ↔ s > 0.8 := by
    intro s
    unfold classifyQuality
    split_ifs with h1 h2 <;> simp_all
  have hPoor : ∀ s : ℚ, classifyQuality s = Quality.POOR ↔ 0.5 < s ∧ s ≤ 0.8 := by
    intro s
    unfold classifyQuality
    split_ifs with h1 h2
    · simp only [reduceCtorEq, false_iff, not_and, not_le]
      intro _
      linarith
    · simp only [true_iff]
      exact ⟨h2, not_lt.mp h1⟩
    · simp only [reduceCtorEq, false_iff, not_and, not_le]
      intro hs
      exact absurd hs h2
  have hLost : ∀ s : ℚ, classifyQuality s = Quality.LOST ↔ s ≤ 0.5 := by
    intro s
    unfold classifyQuality
    split_ifs with h1 h2
    · simp only [reduceCtorEq, false_iff, not_le]
      linarith
    · simp only [reduceCtorEq, false_iff, not_le]
      exact h2
    · simp only [true_iff]
      exact not_lt.mp h2
  refine ⟨hGood, hPoor, hLost, ?_, ?_, ?_, ?_, ?_⟩
  · exact (hGood _).mpr (by norm_num)
  · exact (hPoor _).mpr (by norm_num)
  · exact (hPoor _).mpr (by norm_num)
  · exact (hLost _).mpr (by norm_num)
  · exact (hLost _).mpr (by norm_num)

/-- Witness for C4 at a concrete score. -/
theorem trackingQuality_classification_witness :
    classifyQuality 0.9 = Quality.GOOD :=
  (trackingQuality_classification.1 0.9).mpr (by norm_num)

lemma lerp_between {p c a : ℚ} (h0 : 0 ≤ a) (h1 : a ≤ 1) :
    min p c ≤ lerp p c a ∧ lerp p c a ≤ max p c := by
  unfold lerp
  rcases le_total p c with h | h
  · rw [min_eq_left h, max_eq_right h]
    constructor
    · nlinarith [mul_nonneg (sub_nonneg.mpr h) h0]
    · nlinarith [mul_nonneg (sub_nonneg.mpr h) (sub_nonneg.mpr h1)]
  · rw [min_eq_right h, max_eq_left h]
    constructor
    · nlinarith [mul_nonneg (sub_nonneg.mpr h) (sub_nonneg.mpr h1)]
    · nlinarith [mul_nonneg (sub_nonneg.mpr h) h0]

/-- C10: for every call of the Smoother with a non-null previous set (and
every behaviour of the hypot primitive), the blend factor applied to every
landmark lies in [0.08, 0.92], hence every smoothed coordinate lies between
the previous and the current raw value of that coordinate, smoothed x and y
stay in [0,1] whenever the previous and current values are, and the output
visibility equals the current raw landmark's visibility. -/
theorem smootherInvariants_spec (hyp : ℚ → ℚ → ℚ) (current p : LMs) (i : Nat) :
    (0.08 ≤ alphaOf (smootherMetric hyp current p i)
      ∧ alphaOf (smootherMetric hyp current p i) ≤ 0.92)
    ∧ (min (p i).x (current i).x ≤ (adaptiveSmoothLandmarks hyp current (some p) i).x
      ∧ (adaptiveSmoothLandmarks hyp current (some p) i).x ≤ max (p i).x (current i).x)
    ∧ (min (p i).y (current i).y ≤ (adaptiveSmoothLandmarks hyp current (some p) i).y
      ∧ (adaptiveSmoothLandmarks hyp current (some p) i).y ≤ max (p i).y (current i).y)
    ∧ (min (p i).z (current i).z ≤ (adaptiveSmoothLandmarks hyp current (some p) i).z
      ∧ (adaptiveSmoothLandmarks hyp current (some p) i).z ≤ max (p i).z (current i).z)
    ∧ (0 ≤ (p i).x → (p i).x ≤ 1 → 0 ≤ (current i).x → (current i).x ≤ 1 →
        0 ≤ (adaptiveSmoothLandmarks hyp current (some p) i).x
          ∧ (adaptiveSmoothLandmarks hyp current (some p) i).x ≤ 1)
    ∧ (0 ≤ (p i).y → (p i).y ≤ 1 → 0 ≤ (current i).y → (current i).y ≤ 1 →
        0 ≤ (adaptiveSmoothLandmarks hyp current (some p) i).y
          ∧ (adaptiveSmoothLandmarks hyp current (some p) i).y ≤ 1)
    ∧ (adaptiveSmoothLandmarks hyp current (some p) i).visibility
        = (current i).visibility := by
  obtain ⟨ha0, ha1⟩ := alphaOf_bounds (smootherMetric hyp current p i)
  have h0 : (0 : ℚ) ≤ alphaOf (smootherMetric hyp current p i) := by linarith
  have h1 : alphaOf (smootherMetric hyp current p i) ≤ 1 := by linarith
  have hx : (adaptiveSmoothLandmarks hyp current (some p) i).x
      = lerp (p i).x (current i).x (alphaOf (smootherMetric hyp current p i)) := rfl
  have hy : (adaptiveSmoothLandmarks hyp current (some p) i).y
      = lerp (p i).y (current i).y (alphaOf (smootherMetric hyp current p i)) := rfl
  have hz : (adaptiveSmoothLandmarks hyp current (some p) i).z
      = lerp (p i).z (current i).z (alphaOf (smootherMetric hyp current p i)) := rfl
  obtain ⟨hxl, hxr⟩ := lerp_between (p := (p i).x) (c := (current i).x) h0 h1
  obtain ⟨hyl, hyr⟩ := lerp_between (p := (p i).y) (c := (current i).y) h0 h1
  obtain ⟨hzl, hzr⟩ := lerp_between (p := (p i).z) (c := (current i).z) h0 h1
  refine ⟨⟨ha0, ha1⟩, ⟨hx ▸ hxl, hx ▸ hxr⟩, ⟨hy ▸ hyl, hy ▸ hyr⟩, ⟨hz ▸ hzl, hz ▸ hzr⟩,
    fun hp0 hp1 hc0 hc1 => ⟨?_, ?_⟩, fun hp0 hp1 hc0 hc1 => ⟨?_, ?_⟩, rfl⟩
  · exact le_trans (le_min hp0 hc0) (hx ▸ hxl)
  · exact le_trans (hx ▸ hxr) (max_le hp1 hc1)
  · exact le_trans (le_min hp0 hc0) (hy ▸ hyl)
  · exact le_trans (hy ▸ hyr) (max_le hp1 hc1)

/-- Witness for C10 at a concrete call. -/
theorem smootherInvariants_spec_witness :
    (0 ≤ (adaptiveSmoothLandmarks hypW lmsShifted (some lmsOrigin) 5).x
      ∧ (adaptiveSmoothLandmarks hypW lmsShifted (some lmsOrigin) 5).x ≤ 1)
    ∧ (adaptiveSmoothLandmarks hypW lmsShifted (some lmsOrigin) 5).visibility
        = (lmsShifted 5).visibility :=
  ⟨(smootherInvariants_spec hypW lmsShifted lmsOrigin 5).2.2.2.2.1
      (by norm_num [lmsOrigin, mkLM]) (by norm_num [lmsOrigin, mkLM])
      (by norm_num [lmsShifted, mkLM]) (by norm_num [lmsShifted, mkLM]),
   (smootherInvariants_spec hypW lmsShifted lmsOrigin 5).2.2.2.2.2.2⟩

/-- All 33 landmarks at the same point: a degenerate (too small) subject. -/
def lmsTiny : LMs := fun _ => mkLM 0.5 0.5

/-- A squatting subject with ankles wider than 0.2×bodyScale and knees
narrower than 0.75×ankleWidth. -/
def lmsSquat : LMs := fun i =>
  if i = 11 then mkLM 0.6 0.3
  else if i = 12 then mkLM 0.4 0.3
  else if i = 23 then mkLM 0.6 0.6
  else if i = 24 then mkLM 0.4 0.6
  else if i = 25 then mkLM 0.45 0.8
  else if i = 26 then mkLM 0.55 0.8
  else if i = 27 then mkLM 0.35 0.95
  else if i = 28 then mkLM 0.65 0.95
  else mkLM 0.5 0.5

/-- A bicep-curl subject whose left arm is active (wrist above hip, visible)
with the left elbow drifted outward beyond 0.9×shoulderWidth. -/
def lmsCurl : LMs := fun i =>
  if i = 11 then mkLM 0.6 0.3
  else if i = 12 then mkLM 0.4 0.3
  else if i = 13 then mkLM 0.9 0.45
  else if i = 15 then mkLM 0.7 0.4
  else if i = 23 then mkLM 0.6 0.6
  else if i = 24 then mkLM 0.4 0.6
  else mkLM 0.5 0.5

/-- C6: for every exercise, every landmark configuration, every stability
score and every behaviour of the angle primitive, the analyzer returns no
cue whenever bodyScale = (shoulderWidth + torsoHeight)/2 is below 0.02. -/
theorem bodyScaleGate_spec (angleFn : Landmark → Landmark → Landmark → ℚ)
    (lms : LMs) (w : WorkoutType) (s : ℚ) (h : bodyScaleOf lms < 0.02) :
    analyzePose angleFn lms w s = none := by
  unfold analyzePose
  rw [if_pos h]

/-- Witness for C6 at a concrete degenerate subject. -/
theorem bodyScaleGate_spec_witness :
    bodyScaleOf lmsTiny < 0.02 ∧ analyzePose angleZero lmsTiny .PLANK 5 = none :=
  ⟨by norm_num [bodyScaleOf, shoulderWidthOf, torsoHeightOf, lmsTiny, mkLM],
   bodyScaleGate_spec angleZero lmsTiny .PLANK 5
     (by norm_num [bodyScaleOf, shoulderWidthOf, torsoHeightOf, lmsTiny, mkLM])⟩

/-- C7: for the squat (with bodyScale ≥ 0.02), whenever ankle-width >
0.2×bodyScale and knee-width < 0.75×ankleWidth the analyzer returns exactly
"Push Knees Out!" — for every depth (z) configuration, i.e. without the
knee-depth rule being consulted — and only when this first rule fails does
a knee depth exceeding its ankle's depth by more than 0.6×bodyScale yield
"Keep Knees Behind Toes". -/
theorem squatRules_spec (angleFn : Landmark → Landmark → Landmark → ℚ)
    (lms : LMs) (s : ℚ) (hbs : ¬ bodyScaleOf lms < 0.02) :
    ((|(lms 27).x - (lms 28).x| > bodyScaleOf lms * 0.2 ∧
      |(lms 25).x - (lms 26).x| < |(lms 27).x - (lms 28).x| * 0.75) →
        analyzePose angleFn lms .SQUAT s = some "Push Knees Out!")
    ∧ (¬ (|(lms 27).x - (lms 28).x| > bodyScaleOf lms * 0.2 ∧
          |(lms 25).x - (lms 26).x| < |(lms 27).x - (lms 28).x| * 0.75) →
        ((lms 25).z < (lms 27).z - bodyScaleOf lms * 0.6 ∨
         (lms 26).z < (lms 28).z - bodyScaleOf lms * 0.6) →
        analyzePose angleFn lms .SQUAT s = some "Keep Knees Behind Toes") := by
  unfold analyzePose
  rw [if_neg hbs]
  refine ⟨fun h => ?_, fun h1 h2 => ?_⟩
  · exact if_pos h
  · show (if _ then _ else _) = _
    rw [if_neg h1]
    exact if_pos h2

/-- Witness for C7 at a concrete squat frame. -/
theorem squatRules_spec_witness :
    analyzePose angleZero lmsSquat .SQUAT 0 = some "Push Knees Out!" :=
  (squatRules_spec angleZero lmsSquat 0
      (by norm_num [bodyScaleOf, shoulderWidthOf, torsoHeightOf, lmsSquat, mkLM,
        abs_eq_max_neg, max_def])).1
    (by norm_num [bodyScaleOf, shoulderWidthOf, torsoHeightOf, lmsSquat, mkLM,
      abs_eq_max_neg, max_def])

/-- Counterexample for C2 as stated: there is no frame at all in which a
per-arm elbow rule's condition holds (with a usable body scale) and the
analyzer nevertheless outputs "Keep Torso Still" — the per-arm checks
return early, so the stability check is not evaluated after them. -/
theorem bicepTorsoStill_claim_cex :
    ¬ ∃ (angleFn : Landmark → Landmark → Landmark → ℚ) (lms : LMs) (s : ℚ),
      ¬ bodyScaleOf lms < 0.02 ∧ s > 0.0025 ∧
      ((((lms 15).y < (lms 23).y ∧ isVisible (lms 15)) ∧
        |(lms 13).x - (lms 11).x| > shoulderWidthOf lms * 0.9) ∨
       (((lms 16).y < (lms 24).y ∧ isVisible (lms 16)) ∧
        |(lms 14).x - (lms 12).x| > shoulderWidthOf lms * 0.9)) ∧
      analyzePose angleFn lms .BICEP_CURL s = some "Keep Torso Still" := by
  rintro ⟨f, lms, s, hbs, hs, harm, hout⟩
  simp only [analyzePose, if_neg hbs] at hout
  by_cases hc1 : ((lms 15).y < (lms 23).y ∧ isVisible (lms 15)) ∧
      |(lms 13).x - (lms 11).x| > shoulderWidthOf lms * 0.9
  · rw [if_pos hc1] at hout
    injection hout with h
    exact absurd h (by decide)
  · rw [if_neg hc1] at hout
    have hc2 : ¬ (((lms 15).y < (lms 23).y ∧ isVisible (lms 15)) ∧
        f (lms 11) (lms 13) (lms 15) > 160 ∧ s < 0.001) := by
      rintro ⟨-, -, hlt⟩
      linarith
    rw [if_neg hc2] at hout
    by_cases hc3 : ((lms 16).y < (lms 24).y ∧ isVisible (lms 16)) ∧
        |(lms 14).x - (lms 12).x| > shoulderWidthOf lms * 0.9
    · rw [if_pos hc3] at hout
      injection hout with h
      exact absurd h (by decide)
    · exact harm.elim hc1 hc3

/-- C2 amended: in the bicep-curl rule set the per-arm checks return
immediately, so "Keep Torso Still" (stabilityScore > 0.0025) is only a
fallback evaluated when no per-arm rule fired; a frame whose left-elbow
rule condition holds outputs "Tuck Left Elbow" for every stability score,
and "Keep Torso Still" is output exactly when no earlier rule fired and
stabilityScore > 0.0025. -/
theorem bicepTorsoStill_amended (angleFn : Landmark → Landmark → Landmark → ℚ)
    (lms : LMs) (s : ℚ) (hbs : ¬ bodyScaleOf lms < 0.02) :
    ((((lms 15).y < (lms 23).y ∧ isVisible (lms 15)) ∧
      |(lms 13).x - (lms 11).x| > shoulderWidthOf lms * 0.9) →
        analyzePose angleFn lms .BICEP_CURL s = some "Tuck Left Elbow")
    ∧ (¬ (((lms 15).y < (lms 23).y ∧ isVisible (lms 15)) ∧
          |(lms 13).x - (lms 11).x| > shoulderWidthOf lms * 0.9) →
       ¬ (((lms 15).y < (lms 23).y ∧ isVisible (lms 15)) ∧
          angleFn (lms 11) (lms 13) (lms 15) > 160 ∧ s < 0.001) →
       ¬ (((lms 16).y < (lms 24).y ∧ isVisible (lms 16)) ∧
          |(lms 14).x - (lms 12).x| > shoulderWidthOf lms * 0.9) →
       s > 0.0025 →
        analyzePose angleFn lms .BICEP_CURL s = some "Keep Torso Still") := by
  unfold analyzePose
  rw [if_neg hbs]
  refine ⟨fun h => if_pos h, fun h1 h2 h3 h4 => ?_⟩
  show (if _ then _ else _) = _
  rw [if_neg h1]
  show (if _ then _ else _) = _
  rw [if_neg h2]
  show (if _ then _ else _) = _
  rw [if_neg h3]
  exact if_pos h4

/-- Witness for the amended C2: a concrete frame whose left-elbow rule fires
while the stability score is far above 0.0025 still outputs the elbow cue. -/
theorem bicepTorsoStill_amended_witness :
    analyzePose angleZero lmsCurl .BICEP_CURL 1 = some "Tuck Left Elbow" :=
  (bicepTorsoStill_amended angleZero lmsCurl 1
      (by norm_num [bodyScaleOf, shoulderWidthOf, torsoHeightOf, lmsCurl, mkLM,
        abs_eq_max_neg, max_def])).1
    (by norm_num [shoulderWidthOf, isVisible, lmsCurl, mkLM, abs_eq_max_neg, max_def])

/-- Counterexample for C1 as stated: in the frame built from `stTracked`
(previous smoothed set `lmsOrigin`, stability score 0) and the raw set
`lmsShifted`, the code updates the scalar to 0.0002, whereas
`stabilityScore*0.9 + 0.1*distance(current smoothed hip midpoint, previous
smoothed hip midpoint)` equals 0.0023 — because line 577 overwrites
`prevLandmarksRef` with the current smoothed set before the update, which
therefore measures the raw-vs-smoothed residual of the current frame.
Moreover an update occurs even when no previous smoothed set exists
(`stFresh`): the scalar decays from 1 to 0.9.  All hypot evaluations are
axis-aligned, where `hypW` agrees with `Math.hypot`. -/
theorem stabilityUpdate_claim_cex :
    ((detectPoseStep hypW angleZero .SQUAT false stTracked (some lmsShifted) 16).1.stabilityScore
        = 0.0002)
    ∧ (stTracked.stabilityScore * 0.9 +
        hypW ((hipMidpoint (adaptiveSmoothLandmarks hypW lmsShifted stTracked.prevLandmarks)).1
                - (hipMidpoint lmsOrigin).1)
             ((hipMidpoint (adaptiveSmoothLandmarks hypW lmsShifted stTracked.prevLandmarks)).2
                - (hipMidpoint lmsOrigin).2) * 0.1
        = 0.0023)
    ∧ ((0.0002 : ℚ) ≠ 0.0023)
    ∧ (detectPoseStep hypW angleZero .SQUAT false stFresh (some lmsShifted) 16).1.stabilityScore
        ≠ stFresh.stabilityScore := by
  refine ⟨?_, ?_, by norm_num, ?_⟩
  · norm_num [detectPoseStep, runFrameWith, stTracked, lmsShifted, lmsOrigin, mkLM, hypW,
      hipMidpoint, adaptiveSmoothLandmarks, smootherMetric, globalVelocity, coreIndices,
      alphaOf, lerp, max_def, min_def, abs_eq_max_neg]
  · norm_num [stTracked, lmsShifted, lmsOrigin, mkLM, hypW,
      hipMidpoint, adaptiveSmoothLandmarks, smootherMetric, globalVelocity, coreIndices,
      alphaOf, lerp, max_def, min_def, abs_eq_max_neg]
  · norm_num [detectPoseStep, runFrameWith, stFresh, lmsShifted, lmsOrigin, mkLM, hypW,
      hipMidpoint, adaptiveSmoothLandmarks]

/-- C1 amended: on every frame with usable landmarks the scalar is updated
to stabilityScore×0.9 + movement×0.1, where movement is the distance
between the current frame's **raw** hip midpoint and the **current**
frame's smoothed hip midpoint (the previous-smoothed reference having just
been overwritten at line 577); in particular the update also occurs when
there was no valid previous set — the raw and smoothed sets then coincide,
so the movement is distance zero and the scalar decays by the factor 0.9. -/
theorem stabilityUpdate_amended (hyp : ℚ → ℚ → ℚ)
    (angleFn : Landmark → Landmark → Landmark → ℚ) (w : WorkoutType) (act : Bool)
    (st : PipelineState) (l : LMs) (now : ℤ) :
    ((detectPoseStep hyp angleFn w act st (some l) now).1.stabilityScore
      = st.stabilityScore * 0.9 +
        hyp ((hipMidpoint l).1 - (hipMidpoint (adaptiveSmoothLandmarks hyp l st.prevLandmarks)).1)
            ((hipMidpoint l).2 - (hipMidpoint (adaptiveSmoothLandmarks hyp l st.prevLandmarks)).2)
          * 0.1)
    ∧ (st.prevLandmarks = none → hyp 0 0 = 0 →
        (detectPoseStep hyp angleFn w act st (some l) now).1.stabilityScore
          = st.stabilityScore * 0.9) := by
  constructor
  · rfl
  · intro hprev h00
    simp [detectPoseStep, runFrameWith, hprev, adaptiveSmoothLandmarks, h00]

/-- Witness for the amended C1: with no previous smoothed set the scalar
still updates, decaying by 0.9. -/
theorem stabilityUpdate_amended_witness :
    (detectPoseStep hypW angleZero .SQUAT false stFresh (some lmsShifted) 16).1.stabilityScore
      = stFresh.stabilityScore * 0.9 :=
  (stabilityUpdate_amended hypW angleZero .SQUAT false stFresh lmsShifted 16).2 rfl
    (by norm_num [hypW])

/-- C5: with a previously tracked subject (a retained last known-good set),
a frame with no raw landmarks more than 200ms after the last ones forces
LOST quality, a zero score, and clears the retained smoothed-landmark
state; a frame within the 200ms grace window instead reuses the last
known-good landmark set unchanged as the input to the downstream
components. -/
theorem trackingLoss_spec (hyp : ℚ → ℚ → ℚ)
    (angleFn : Landmark → Landmark → Landmark → ℚ) (w : WorkoutType) (act : Bool)
    (st : PipelineState) (l : LMs) (now : ℤ)
    (hlv : st.lastValidLandmarks = some l) :
    (now - st.lastLandmarksTime > 200 →
      (detectPoseStep hyp angleFn w act st none now).2.quality = Quality.LOST
      ∧ (detectPoseStep hyp angleFn w act st none now).2.score = 0
      ∧ (detectPoseStep hyp angleFn w act st none now).1.prevLandmarks = none)
    ∧ (now - st.lastLandmarksTime < 200 →
      (detectPoseStep hyp angleFn w act st none now).2.usedLandmarks = some l
      ∧ (detectPoseStep hyp angleFn w act st none now).1.lastValidLandmarks = some l
      ∧ (detectPoseStep hyp angleFn w act st none now).1.lastLandmarksTime
          = st.lastLandmarksTime) := by
  constructor
  · intro h
    have hg : graceLandmarks st now = none := by
      simp only [graceLandmarks, hlv]
      rw [if_neg (by omega)]
    simp [detectPoseStep, hg, runFrameNone, h]
  · intro h
    have hg : graceLandmarks st now = some l := by
      simp [graceLandmarks, hlv, h]
    simp [detectPoseStep, hg, runFrameWith, hlv]

/-- Witness for C5: a 250ms gap resets, a 150ms gap reuses. -/
theorem trackingLoss_spec_witness :
    (250 - stTracked.lastLandmarksTime > 200
      ∧ (detectPoseStep hypW angleZero .SQUAT false stTracked none 250).2.quality = Quality.LOST
      ∧ (detectPoseStep hypW angleZero .SQUAT false stTracked none 250).1.prevLandmarks = none)
    ∧ (150 - stTracked.lastLandmarksTime < 200
      ∧ (detectPoseStep hypW angleZero .SQUAT false stTracked none 150).2.usedLandmarks
          = some lmsOrigin) := by
  have h250 := (trackingLoss_spec hypW angleZero .SQUAT false stTracked lmsOrigin 250 rfl).1
    (by norm_num [stTracked])
  have h150 := (trackingLoss_spec hypW angleZero .SQUAT false stTracked lmsOrigin 150 rfl).2
    (by norm_num [stTracked])
  exact ⟨⟨by norm_num [stTracked], h250.1, h250.2.2⟩, by norm_num [stTracked], h150.1⟩

/-- C8: a frame whose timestamp is within 500ms of the last heuristic
evaluation leaves the stored cue and the evaluation timestamp unchanged
(for every workout, activity flag and landmark set), and whenever the
evaluation timestamp does change, more than 500ms had elapsed — so the
analyzer runs at most once within any 500ms window. -/
theorem heuristicRateLimit_spec (hyp : ℚ → ℚ → ℚ)
    (angleFn : Landmark → Landmark → Landmark → ℚ) (w : WorkoutType) (act : Bool)
    (st : PipelineState) (l : LMs) (now : ℤ) :
    (now - st.lastHeuristicUpdate ≤ 500 →
      (detectPoseStep hyp angleFn w act st (some l) now).1.heuristicFeedback
          = st.heuristicFeedback
      ∧ (detectPoseStep hyp angleFn w act st (some l) now).1.lastHeuristicUpdate
          = st.lastHeuristicUpdate)
    ∧ ((detectPoseStep hyp angleFn w act st (some l) now).1.lastHeuristicUpdate
          ≠ st.lastHeuristicUpdate →
        now - st.lastHeuristicUpdate > 500) := by
  constructor
  · intro h
    have hc : ¬ (act ∧ now - st.lastHeuristicUpdate > 500) := by
      rintro ⟨-, hgt⟩
      omega
    constructor
    · show (if act ∧ now - st.lastHeuristicUpdate > 500 then _ else _) = _
      exact if_neg hc
    · show (if act ∧ now - st.lastHeuristicUpdate > 500 then _ else _) = _
      exact if_neg hc
  · intro hne
    by_cases hc : act ∧ now - st.lastHeuristicUpdate > 500
    · exact hc.2
    · exfalso
      apply hne
      show (if act ∧ now - st.lastHeuristicUpdate > 500 then _ else _) = _
      exact if_neg hc

/-- Witness for C8: a frame 400ms after the last evaluation changes
nothing. -/
theorem heuristicRateLimit_spec_witness :
    (400 - stTracked.lastHeuristicUpdate ≤ 500)
    ∧ (detectPoseStep hypW angleZero .BICEP_CURL true stTracked (some lmsShifted) 400).1.heuristicFeedback
        = stTracked.heuristicFeedback :=
  ⟨by norm_num [stTracked],
   ((heuristicRateLimit_spec hypW angleZero .BICEP_CURL true stTracked lmsShifted 400).1
      (by norm_num [stTracked])).1⟩

lemma drawMusclePart_eq_some {lms : PartialLMs} {a b : Nat} {pk : PartKey} {c : DrawCmd}
    (h : drawMusclePart lms a b pk = some c) :
    c = ⟨a, b, pk⟩ ∧ (lms a).isSome ∧ (lms b).isSome := by
  unfold drawMusclePart at h
  cases ha : lms a <;> cases hb : lms b <;> rw [ha, hb] at h <;> simp_all

lemma drawMusclePart_of_isSome {lms : PartialLMs} {a b : Nat} (pk : PartKey)
    (ha : (lms a).isSome) (hb : (lms b).isSome) :
    drawMusclePart lms a b pk = some ⟨a, b, pk⟩ := by
  obtain ⟨x, hx⟩ := Option.isSome_iff_exists.mp ha
  obtain ⟨y, hy⟩ := Option.isSome_iff_exists.mp hb
  unfold drawMusclePart
  rw [hx, hy]

/-- A landmark set missing only the left shoulder (index 11); all other
entries are present. -/
def lmsMissing11 : PartialLMs := fun i => if i = 11 then none else some (mkLM 0.5 0.5)

/-- A landmark set missing only the left knee (index 25). -/
def lmsMissing25 : PartialLMs := fun i => if i = 25 then none else some (mkLM 0.5 0.5)

/-- Counterexample for C9 as stated: with landmark 11 absent, the shapes
upperArm(11,13) (and others) have a missing endpoint, yet the renderer does
not merely skip them — the unguarded torso-midpoint reads of lines 482-485
abort the whole anatomy pass, so even forearm(13,15), whose two endpoints
are present, is not painted. -/
theorem renderSkip_claim_cex :
    (lmsMissing11 13).isSome ∧ (lmsMissing11 15).isSome ∧ lmsMissing11 11 = none ∧
    renderAnatomy lmsMissing11 = Except.error () :=
  ⟨rfl, rfl, rfl, rfl⟩

/-- C9 amended: provided the four torso landmarks 11, 12, 23, 24 are
present, the anatomy pass completes without aborting and paints exactly
those muscle-part shapes whose two endpoint landmarks are present — a shape
with a missing endpoint is skipped on its own, and every complete pair is
still painted.  (When one of 11, 12, 23, 24 is missing, the unguarded torso
midpoint computation aborts the pass instead.) -/
theorem renderSkip_amended (lms : PartialLMs)
    (h11 : (lms 11).isSome) (h12 : (lms 12).isSome)
    (h23 : (lms 23).isSome) (h24 : (lms 24).isSome) :
    ∃ cmds : List DrawCmd, renderAnatomy lms = Except.ok cmds
      ∧ ∀ s e p, (s, e, p) ∈ musclePartList →
          ((⟨s, e, p⟩ : DrawCmd) ∈ cmds ↔ (lms s).isSome ∧ (lms e).isSome) := by
  obtain ⟨a11, ha11⟩ := Option.isSome_iff_exists.mp h11
  obtain ⟨a12, ha12⟩ := Option.isSome_iff_exists.mp h12
  obtain ⟨a23, ha23⟩ := Option.isSome_iff_exists.mp h23
  obtain ⟨a24, ha24⟩ := Option.isSome_iff_exists.mp h24
  refine ⟨musclePartList.filterMap fun t => drawMusclePart lms t.1 t.2.1 t.2.2, ?_, ?_⟩
  · unfold renderAnatomy
    rw [ha11, ha12, ha23, ha24]
  · intro s e p hmem
    constructor
    · intro hin
      obtain ⟨t, ht, heq⟩ := List.mem_filterMap.mp hin
      obtain ⟨hc, hsa, hsb⟩ := drawMusclePart_eq_some heq
      injection hc with hs he hp
      subst hs
      subst he
      exact ⟨hsa, hsb⟩
    · rintro ⟨hsa, hsb⟩
      exact List.mem_filterMap.mpr ⟨(s, e, p), hmem, drawMusclePart_of_isSome p hsa hsb⟩

/-- Witness for the amended C9: with only landmark 25 missing the pass
completes, painting exactly the complete pairs. -/
theorem renderSkip_amended_witness :
    ∃ cmds : List DrawCmd, renderAnatomy lmsMissing25 = Except.ok cmds
      ∧ ∀ s e p, (s, e, p) ∈ musclePartList →
          ((⟨s, e, p⟩ : DrawCmd) ∈ cmds ↔
            (lmsMissing25 s).isSome ∧ (lmsMissing25 e).isSome) :=
  renderSkip_amended lmsMissing25 rfl rfl rfl rfl

end FormFit
